import Mathlib

/-!
Shallow embedding of the WeatherApp single-page component.

The repository holds two near-duplicate variants of the same React
component: src/Containers/Weather.tsx (namespace Simple below) and an
unnamed source file (namespace Rich below) that adds humidity and
visibility fields to the current-conditions record and performs unit
conversion in the rendered output. JavaScript numbers are modelled as
rationals; the display rounding toFixed(1) is modelled as rounding to one
decimal place. The component state machine (useState fields, the
useEffect fetch keyed on the search query, the promise then / catch
handlers) is embedded as an explicit state type with a step function over
an event trace.
-/

namespace WeatherApp

/-- Display unit: the source union type of the string literals C and F. -/
inductive TempUnit
  | C
  | F
  deriving DecidableEq

/-- The condition record: condition.text and condition.icon. -/
structure Condition where
  text : String
  icon : String
  deriving DecidableEq

/-- The current-conditions record of the WeatherData interface. Superset of
the two variants: humidity and visibility_km appear only in the Rich
variant and are ignored by the Simple variant. -/
structure Current where
  temp_c : ℚ
  temp_f : ℚ
  condition : Condition
  wind_kph : ℚ
  precip_mm : ℚ
  uv : ℚ
  humidity : ℚ
  visibility_km : ℚ
  deriving DecidableEq

/-- One element of forecast.forecastday[i].day . -/
structure Day where
  maxtemp_c : ℚ
  maxtemp_f : ℚ
  mintemp_c : ℚ
  mintemp_f : ℚ
  condition : Condition
  deriving DecidableEq

/-- One element of forecast.forecastday . -/
structure ForecastDay where
  date : String
  day : Day
  deriving DecidableEq

/-- The forecast record of the WeatherData interface. -/
structure Forecast where
  forecastday : List ForecastDay
  deriving DecidableEq

/-- The location record of the WeatherData interface. -/
structure Location where
  name : String
  deriving DecidableEq

/-- The WeatherData interface (the parsed provider payload). -/
structure WeatherData where
  location : Location
  current : Current
  forecast : Forecast
  deriving DecidableEq

/-- JavaScript x.toFixed(1), read back as a number: round to one decimal
place (nearest, half up). -/
def toFixed1 (q : ℚ) : ℚ :=
  (⌊q * 10 + 1 / 2⌋ : ℚ) / 10

/-- The inline conversion expression ((c * 9/5) + 32).toFixed(1) that the
Rich variant applies wherever it displays a Fahrenheit temperature. -/
def toFahrenheit (c : ℚ) : ℚ :=
  toFixed1 (c * 9 / 5 + 32)

/-- The visible content of one rendered forecast-day panel. -/
structure ForecastPanel where
  date : String
  conditionText : String
  conditionIcon : String
  maxTempShown : ℚ
  minTempShown : ℚ
  unitSuffix : TempUnit
  deriving DecidableEq

namespace Simple

/-- ForecastCard of src/Containers/Weather.tsx lines 46-67. The max and
min lines are the source ternaries tempUnit === C ? maxTemp : maxTemp and
tempUnit === C ? minTemp : minTemp, whose two arms coincide: no
conversion is applied in either branch. -/
def ForecastCard (date : String) (maxTemp minTemp : ℚ)
    (conditionText conditionIcon : String) (tempUnit : TempUnit) :
    ForecastPanel :=
  { date := date
    conditionText := conditionText
    conditionIcon := conditionIcon
    maxTempShown := match tempUnit with
      | .C => maxTemp
      | .F => maxTemp
    minTempShown := match tempUnit with
      | .C => minTemp
      | .F => minTemp
    unitSuffix := tempUnit }

/-- The forecast map of src/Containers/Weather.tsx lines 201-211: one
ForecastCard per element of weatherData.forecast.forecastday, given the
raw Celsius fields. -/
def renderForecast (weatherData : WeatherData) (tempUnit : TempUnit) :
    List ForecastPanel :=
  weatherData.forecast.forecastday.map fun day =>
    ForecastCard day.date day.day.maxtemp_c day.day.mintemp_c
      day.day.condition.text day.day.condition.icon tempUnit

/-- The current-temperature heading of src/Containers/Weather.tsx line
179: tempUnit === C ? temp_c : temp_f, using the provider-supplied
Fahrenheit field. -/
def currentTempShown (weatherData : WeatherData) (tempUnit : TempUnit) : ℚ :=
  match tempUnit with
  | .C => weatherData.current.temp_c
  | .F => weatherData.current.temp_f

end Simple

namespace Rich

/-- ForecastCard of the unnamed variant, lines 48-69: in Fahrenheit mode
the card itself converts its maxTemp and minTemp props with
((x * 9/5) + 32).toFixed(1). -/
def ForecastCard (date : String) (maxTemp minTemp : ℚ)
    (conditionText conditionIcon : String) (tempUnit : TempUnit) :
    ForecastPanel :=
  { date := date
    conditionText := conditionText
    conditionIcon := conditionIcon
    maxTempShown := match tempUnit with
      | .C => maxTemp
      | .F => toFahrenheit maxTemp
    minTempShown := match tempUnit with
      | .C => minTemp
      | .F => toFahrenheit minTemp
    unitSuffix := tempUnit }

/-- The forecast map of the unnamed variant, lines 266-276: the callsite
already converts in Fahrenheit mode, passing
Number(tempUnit === C ? maxtemp_c : ((maxtemp_c * 9/5) + 32).toFixed(1))
as the maxTemp prop, and likewise for minTemp. -/
def renderForecast (weatherData : WeatherData) (tempUnit : TempUnit) :
    List ForecastPanel :=
  weatherData.forecast.forecastday.map fun day =>
    ForecastCard day.date
      (match tempUnit with
        | .C => day.day.maxtemp_c
        | .F => toFahrenheit day.day.maxtemp_c)
      (match tempUnit with
        | .C => day.day.mintemp_c
        | .F => toFahrenheit day.day.mintemp_c)
      day.day.condition.text day.day.condition.icon tempUnit

/-- The current-temperature heading of the unnamed variant, lines 234-239:
tempUnit === C ? temp_c : ((temp_c * 9/5) + 32).toFixed(1). -/
def currentTempShown (weatherData : WeatherData) (tempUnit : TempUnit) : ℚ :=
  match tempUnit with
  | .C => weatherData.current.temp_c
  | .F => toFahrenheit weatherData.current.temp_c

end Rich

/-- The three provider-side failure modes named by the error policy. The
component receives them only as a rejected promise; the kind is what gets
logged by console.error in the catch handler. -/
inductive FailureKind
  | networkError
  | nonSuccessStatus
  | malformedPayload
  deriving DecidableEq

/-- External events driving the component: a form submission
(handleSearch), a click on the unit toggle (toggleTempUnit), and the
resolution of an in-flight axios request identified by the number it was
issued with, either fulfilled with parsed data or rejected. -/
inductive Event
  | submit (s : String)
  | toggleTempUnit
  | resolveSuccess (id : Nat) (d : WeatherData)
  | resolveFailure (id : Nat) (k : FailureKind)
  deriving DecidableEq

/-- The component state: the four useState hooks (weatherData,
searchQuery, error, tempUnit), plus bookkeeping that makes the network
behaviour observable: pending holds the ids and query strings of
in-flight requests (axios calls whose promise has not settled), nextId is
the next fresh request id, fetchLog records every query string a fetch
was issued for (oldest first), and consoleLog records the failure kinds
passed to console.error. -/
structure CompState where
  weatherData : Option WeatherData
  searchQuery : String
  error : Option String
  tempUnit : TempUnit
  pending : List (Nat × String)
  nextId : Nat
  fetchLog : List String
  consoleLog : List FailureKind
  deriving DecidableEq

/-- Initial hook values: useState(null), useState(empty), useState(null),
useState(C). -/
def initState : CompState :=
  { weatherData := none
    searchQuery := ""
    error := none
    tempUnit := .C
    pending := []
    nextId := 0
    fetchLog := []
    consoleLog := [] }

/-- The useEffect body (both variants, lines 75-91 resp. 77-93): if
(searchQuery) issue one axios.get for the current searchQuery. A
JavaScript string is truthy exactly when it is nonempty; no trimming is
applied. The new request is recorded as pending under a fresh id. -/
def runEffect (st : CompState) : CompState :=
  if st.searchQuery ≠ "" then
    { st with
        pending := st.pending ++ [(st.nextId, st.searchQuery)]
        nextId := st.nextId + 1
        fetchLog := st.fetchLog ++ [st.searchQuery] }
  else st

/-- handleSearch (lines 97-103 resp. 99-105): setSearchQuery with the raw
field value. If the submitted text equals the current searchQuery, React
bails out of the state update and the effect (whose dependency array is
[searchQuery]) does not re-run; otherwise the query changes and the
effect runs once. -/
def handleSearch (st : CompState) (s : String) : CompState :=
  if s = st.searchQuery then st
  else runEffect { st with searchQuery := s }

/-- toggleTempUnit (lines 93-95 resp. 95-97):
setTempUnit(tempUnit === C ? F : C). -/
def toggleTempUnit (st : CompState) : CompState :=
  { st with
      tempUnit := match st.tempUnit with
        | .C => .F
        | .F => .C }

/-- The then handler of the axios promise: setWeatherData(response.data);
setError(null). It does not check whether its request is still the
current one. -/
def onSuccess (st : CompState) (d : WeatherData) : CompState :=
  { st with weatherData := some d, error := none }

/-- The catch handler: console.error of the underlying error, then
setError with the fixed message and setWeatherData(null). The state
outcome does not depend on the failure kind. -/
def onFailure (st : CompState) (k : FailureKind) : CompState :=
  { st with
      consoleLog := st.consoleLog ++ [k]
      error := some "Location is not available"
      weatherData := none }

/-- One step of the component. A resolve event only fires for a request
that is actually in flight (its id is pending); when it fires, the
corresponding promise handler runs unconditionally and the request leaves
the pending set. A resolve event whose id is not pending corresponds to
no real response and is a no-op. -/
def step (st : CompState) : Event → CompState
  | .submit s => handleSearch st s
  | .toggleTempUnit => toggleTempUnit st
  | .resolveSuccess i d =>
      if (st.pending.map Prod.fst).contains i then
        { onSuccess st d with pending := st.pending.filter (fun p => p.1 != i) }
      else st
  | .resolveFailure i k =>
      if (st.pending.map Prod.fst).contains i then
        { onFailure st k with pending := st.pending.filter (fun p => p.1 != i) }
      else st

/-- State after mount: the effect runs once on mount with the initial
empty searchQuery, so no fetch is issued. -/
def mountState : CompState :=
  runEffect initState

/-- Run the component from mount over a list of events. -/
def runTrace (es : List Event) : CompState :=
  es.foldl step mountState

/-- Whether an event is the resolution of a fetch. -/
def isResolve : Event → Bool
  | .resolveSuccess _ _ => true
  | .resolveFailure _ _ => true
  | _ => false

/-- A sample parsed provider payload carrying a location name and a
current temperature, with one forecast day. -/
def sampleData (n : String) (t : ℚ) : WeatherData :=
  { location := { name := n }
    current :=
      { temp_c := t
        temp_f := t * 9 / 5 + 32
        condition := { text := "Sunny", icon := "sun.png" }
        wind_kph := 10
        precip_mm := 0
        uv := 5
        humidity := 50
        visibility_km := 10 }
    forecast :=
      { forecastday :=
          [{ date := "2024-01-01"
             day :=
               { maxtemp_c := t
                 maxtemp_f := t * 9 / 5 + 32
                 mintemp_c := t - 5
                 mintemp_f := (t - 5) * 9 / 5 + 32
                 condition := { text := "Sunny", icon := "sun.png" } } }] } }

/-- A submission never touches the weatherData, error, tempUnit or
consoleLog fields. -/
theorem submit_fields (st : CompState) (s : String) :
    (handleSearch st s).weatherData = st.weatherData ∧
    (handleSearch st s).error = st.error ∧
    (handleSearch st s).tempUnit = st.tempUnit ∧
    (handleSearch st s).consoleLog = st.consoleLog := by
  unfold handleSearch runEffect
  split <;> [skip; split] <;> simp

/-- The stored result is Success or Failure but never both: weatherData
and error are never simultaneously non-null. -/
def ResultInv (st : CompState) : Prop :=
  st.weatherData = none ∨ st.error = none

theorem resultInv_step (st : CompState) (e : Event) (h : ResultInv st) :
    ResultInv (step st e) := by
  cases e with
  | submit s =>
      rcases h with h | h
      · exact Or.inl ((submit_fields st s).1.trans h)
      · exact Or.inr ((submit_fields st s).2.1.trans h)
  | toggleTempUnit =>
      rcases h with h | h
      · exact Or.inl h
      · exact Or.inr h
  | resolveSuccess i d =>
      simp only [step]
      split
      · exact Or.inr rfl
      · exact h
  | resolveFailure i k =>
      simp only [step]
      split
      · exact Or.inl rfl
      · exact h

theorem resultInv_foldl (es : List Event) :
    ∀ st : CompState, ResultInv st → ResultInv (es.foldl step st) := by
  induction es with
  | nil => exact fun st h => h
  | cons e es ih => exact fun st h => ih (step st e) (resultInv_step st e h)

/-- A non-resolve event leaves weatherData and error untouched. -/
theorem nonresolve_step (st : CompState) (e : Event)
    (h : isResolve e = false) :
    (step st e).weatherData = st.weatherData ∧
    (step st e).error = st.error := by
  cases e with
  | submit s => exact ⟨(submit_fields st s).1, (submit_fields st s).2.1⟩
  | toggleTempUnit => exact ⟨rfl, rfl⟩
  | resolveSuccess i d => simp [isResolve] at h
  | resolveFailure i k => simp [isResolve] at h

theorem nonresolve_foldl (es : List Event) :
    ∀ st : CompState, (∀ e ∈ es, isResolve e = false) →
      (es.foldl step st).weatherData = st.weatherData ∧
      (es.foldl step st).error = st.error := by
  induction es with
  | nil => exact fun st _ => ⟨rfl, rfl⟩
  | cons e es ih =>
      intro st h
      have he := nonresolve_step st e (h e (List.mem_cons_self e es))
      have hr := ih (step st e) fun x hx => h x (List.mem_cons_of_mem e hx)
      exact ⟨hr.1.trans he.1, hr.2.trans he.2⟩

/-- Once some result is present, every later state has some result. -/
theorem nonEmpty_step (st : CompState) (e : Event)
    (h : st.weatherData ≠ none ∨ st.error ≠ none) :
    (step st e).weatherData ≠ none ∨ (step st e).error ≠ none := by
  cases e with
  | submit s =>
      rcases h with h | h
      · exact Or.inl ((submit_fields st s).1 ▸ h)
      · exact Or.inr ((submit_fields st s).2.1 ▸ h)
  | toggleTempUnit => exact h
  | resolveSuccess i d =>
      simp only [step]
      split
      · exact Or.inl (by simp [onSuccess])
      · exact h
  | resolveFailure i k =>
      simp only [step]
      split
      · exact Or.inr (by simp [onFailure])
      · exact h

end WeatherApp

namespace WeatherApp

/-- C1: the effect has no stale-response guard: the then handler of every
request writes its data unconditionally, so when "Paris" then "Tokyo" are
submitted and the Tokyo response resolves before the Paris one, the final
weatherData is the Paris snapshot, not the Tokyo one, although both
fetches were issued in order. -/
theorem stale_response_guard_missing :
    (runTrace [.submit "Paris", .submit "Tokyo",
        .resolveSuccess 1 (sampleData "Tokyo" 22),
        .resolveSuccess 0 (sampleData "Paris" 15)]).weatherData
      = some (sampleData "Paris" 15) ∧
    (runTrace [.submit "Paris", .submit "Tokyo",
        .resolveSuccess 1 (sampleData "Tokyo" 22),
        .resolveSuccess 0 (sampleData "Paris" 15)]).fetchLog
      = ["Paris", "Tokyo"] ∧
    sampleData "Paris" 15 ≠ sampleData "Tokyo" 22 := by
  refine ⟨rfl, rfl, fun h => ?_⟩
  exact absurd (congrArg (fun d => d.location.name) h) (by decide)

/-- C5: every failure resolution, whatever its kind (network error,
non-success status, malformed payload), sets the error to the single
message Location is not available, clears any previously stored weather
data, and records only the underlying kind in the console log. -/
theorem failure_uniform_message (st : CompState) (i : Nat) (k : FailureKind)
    (h : (st.pending.map Prod.fst).contains i) :
    (step st (.resolveFailure i k)).error = some "Location is not available" ∧
    (step st (.resolveFailure i k)).weatherData = none ∧
    (step st (.resolveFailure i k)).consoleLog = st.consoleLog ++ [k] := by
  simp only [step]
  rw [if_pos h]
  exact ⟨rfl, rfl, rfl⟩

/-- Witness for C5: a failure of the single fetch issued for Nowhereland,
applied after a prior success stored Paris data. -/
theorem failure_uniform_message_witness :
    (step (runTrace [.submit "Paris", .resolveSuccess 0 (sampleData "Paris" 15),
        .submit "Nowhereland"]) (.resolveFailure 1 .nonSuccessStatus)).error
      = some "Location is not available" ∧
    (step (runTrace [.submit "Paris", .resolveSuccess 0 (sampleData "Paris" 15),
        .submit "Nowhereland"]) (.resolveFailure 1 .nonSuccessStatus)).weatherData
      = none ∧
    (step (runTrace [.submit "Paris", .resolveSuccess 0 (sampleData "Paris" 15),
        .submit "Nowhereland"]) (.resolveFailure 1 .nonSuccessStatus)).consoleLog
      = (runTrace [.submit "Paris", .resolveSuccess 0 (sampleData "Paris" 15),
        .submit "Nowhereland"]).consoleLog ++ [.nonSuccessStatus] :=
  failure_uniform_message _ 1 .nonSuccessStatus (by decide)

/-- C6: the conversion applied for display is celsius times nine fifths
plus thirty-two, rounded to one decimal place; in particular 0 converts
to 32.0 and 100 to 212.0. It is a total function on the rationals. -/
theorem toFahrenheit_contract :
    (∀ c : ℚ, toFahrenheit c = ((round ((c * 9 / 5 + 32) * 10) : ℤ) : ℚ) / 10) ∧
    toFahrenheit 0 = 32 ∧ toFahrenheit 100 = 212 := by
  refine ⟨fun c => ?_, ?_, ?_⟩
  · rw [toFahrenheit, toFixed1, round_eq]
  · norm_num [toFahrenheit, toFixed1]
  · norm_num [toFahrenheit, toFixed1]

/-- C7: toggling the unit twice restores it, and a single toggle changes
neither the stored result (weatherData, error) nor the network state
(pending requests, fetch log). -/
theorem toggleUnit_involutive_preserves_result (st : CompState) :
    (step (step st .toggleTempUnit) .toggleTempUnit).tempUnit = st.tempUnit ∧
    (step st .toggleTempUnit).weatherData = st.weatherData ∧
    (step st .toggleTempUnit).error = st.error ∧
    (step st .toggleTempUnit).pending = st.pending ∧
    (step st .toggleTempUnit).fetchLog = st.fetchLog := by
  cases h : st.tempUnit <;>
    simp [step, toggleTempUnit, h]

/-- C3 counterexample: submitting a single space from the freshly mounted
component is not ignored. The space is nonempty, hence truthy, so the
query changes from the empty string to a space and one fetch is issued
for it, although the text trims to the empty string. -/
theorem whitespace_submission_not_ignored :
    (runTrace [.submit " "]).fetchLog = [" "] ∧
    (runTrace [.submit " "]).searchQuery = " " ∧
    " ".toList.all Char.isWhitespace = true ∧
    mountState.fetchLog = [] ∧
    mountState.searchQuery = "" :=
  ⟨rfl, rfl, by decide, rfl, rfl⟩

/-- C3 amended: no trimming is performed. A submission equal to the
current query is a complete no-op; an empty submission never issues a
fetch but still overwrites the query; any other submission, including a
whitespace-only one, overwrites the query and issues one fetch for the
untrimmed text. -/
theorem submission_no_trim (st : CompState) (s : String) :
    (s = st.searchQuery → step st (.submit s) = st) ∧
    (s = "" → step st (.submit s) = { st with searchQuery := s }) ∧
    (s ≠ "" → s ≠ st.searchQuery →
      step st (.submit s) =
        { st with
            searchQuery := s
            pending := st.pending ++ [(st.nextId, s)]
            nextId := st.nextId + 1
            fetchLog := st.fetchLog ++ [s] }) := by
  refine ⟨fun h => ?_, fun h => ?_, fun h1 h2 => ?_⟩
  · simp [step, handleSearch, h]
  · subst h
    by_cases hq : "" = st.searchQuery
    · simp only [step, handleSearch, if_pos hq]
      cases st
      simp_all
    · simp only [step, handleSearch, if_neg hq, runEffect]
      simp
  · simp only [step, handleSearch, if_neg (fun hh => h2 hh), runEffect]
    simp [h1]

/-- Witness for C3 amended: a whitespace-only submission on the mounted
component updates the query and issues one fetch for the raw text. -/
theorem submission_no_trim_witness :
    step mountState (.submit " ") =
      { mountState with
          searchQuery := " "
          pending := mountState.pending ++ [(mountState.nextId, " ")]
          nextId := mountState.nextId + 1
          fetchLog := mountState.fetchLog ++ [" "] } :=
  (submission_no_trim mountState " ").2.2 (by decide) (by decide)

/-- C4 counterexample: two consecutive valid submissions of the same text
issue only one fetch in total, because the second setSearchQuery call
does not change the state, so the effect keyed on the query does not
re-run. -/
theorem resubmission_issues_no_fetch :
    (runTrace [.submit "Paris", .submit "Paris"]).fetchLog = ["Paris"] ∧
    "Paris".toList.all Char.isWhitespace = false ∧
    "Paris" ≠ "" :=
  ⟨rfl, by decide, by decide⟩

/-- C4 amended: a valid submission issues exactly one fetch when its text
differs from the currently stored query, and none when it repeats it; no
fetch is issued on mount or by a unit toggle. -/
theorem one_fetch_per_fresh_submission :
    mountState.fetchLog = [] ∧
    (∀ (st : CompState) (s : String), s ≠ "" → s ≠ st.searchQuery →
      (step st (.submit s)).fetchLog = st.fetchLog ++ [s]) ∧
    (∀ st : CompState, (step st (.submit st.searchQuery)).fetchLog = st.fetchLog) ∧
    (∀ st : CompState, (step st .toggleTempUnit).fetchLog = st.fetchLog) := by
  refine ⟨rfl, fun st s h1 h2 => ?_, fun st => ?_, fun st => rfl⟩
  · simp only [step, handleSearch, if_neg (fun hh => h2 hh), runEffect]
    simp [h1]
  · simp [step, handleSearch]

/-- Witness for C4 amended: the first Paris submission appends exactly one
fetch to the empty mount log. -/
theorem one_fetch_per_fresh_submission_witness :
    (step mountState (.submit "Paris")).fetchLog = mountState.fetchLog ++ ["Paris"] :=
  one_fetch_per_fresh_submission.2.1 mountState "Paris" (by decide) (by decide)

/-- C8: in every reachable state the stored data and the stored error are
never both present; both stay absent (the Empty result) as long as no
fetch has resolved; and once a fetch has resolved, every subsequent state
keeps one of the two present. -/
theorem result_variant_invariant (es : List Event) :
    ResultInv (runTrace es) ∧
    ((∀ e ∈ es, isResolve e = false) →
      (runTrace es).weatherData = none ∧ (runTrace es).error = none) ∧
    (∀ (st : CompState) (e : Event),
      st.weatherData ≠ none ∨ st.error ≠ none →
      (step st e).weatherData ≠ none ∨ (step st e).error ≠ none) := by
  refine ⟨resultInv_foldl es mountState (Or.inl rfl), fun h => ?_, nonEmpty_step⟩
  exact nonresolve_foldl es mountState h

/-- Witness for C8: on a trace with one submission and one toggle and no
resolution, the result is still Empty and the invariant holds. -/
theorem result_variant_invariant_witness :
    ResultInv (runTrace [.submit "Paris", .toggleTempUnit]) ∧
    (runTrace [.submit "Paris", .toggleTempUnit]).weatherData = none ∧
    (runTrace [.submit "Paris", .toggleTempUnit]).error = none :=
  ⟨(result_variant_invariant [.submit "Paris", .toggleTempUnit]).1,
   (result_variant_invariant [.submit "Paris", .toggleTempUnit]).2.1 (by decide)⟩

/-- A forecast day with the given date and max and min Celsius values. -/
def mkDay (dt : String) (mx mn : ℚ) : ForecastDay :=
  { date := dt
    day :=
      { maxtemp_c := mx
        maxtemp_f := mx * 9 / 5 + 32
        mintemp_c := mn
        mintemp_f := mn * 9 / 5 + 32
        condition := { text := "Cloudy", icon := "cloud.png" } } }

/-- A parsed payload with the five forecast days of the provider
contract, in chronological order. -/
def fiveDayData : WeatherData :=
  { location := { name := "London" }
    current :=
      { temp_c := 20
        temp_f := 68
        condition := { text := "Sunny", icon := "sun.png" }
        wind_kph := 10
        precip_mm := 0
        uv := 5
        humidity := 50
        visibility_km := 10 }
    forecast :=
      { forecastday :=
          [mkDay "2024-01-01" 20 10, mkDay "2024-01-02" 21 11,
           mkDay "2024-01-03" 22 12, mkDay "2024-01-04" 23 13,
           mkDay "2024-01-05" 24 14] } }

/-- C2: evaluation of both renderers on a snapshot whose stored current
and forecast-max temperature is 20 Celsius. In Fahrenheit mode the richer
variant shows the current temperature correctly as 68 but shows the
forecast maximum as 154.4, converting once at the map callsite and a
second time inside ForecastCard; the simpler variant shows the unconverted
20 under an F suffix for the forecast and shows the provider temp_f field,
not a conversion of temp_c, as the current temperature. In Celsius mode
both show the stored values unchanged. -/
theorem forecast_conversion_divergence :
    Rich.currentTempShown (sampleData "X" 20) .F = 68 ∧
    toFahrenheit 20 = 68 ∧
    Rich.currentTempShown (sampleData "X" 20) .C = 20 ∧
    (Rich.renderForecast (sampleData "X" 20) .F).map ForecastPanel.maxTempShown
      = [772 / 5] ∧
    (Simple.renderForecast (sampleData "X" 20) .F).map ForecastPanel.maxTempShown
      = [20] ∧
    (Rich.renderForecast (sampleData "X" 20) .C).map ForecastPanel.maxTempShown
      = [20] ∧
    (Simple.renderForecast (sampleData "X" 20) .C).map ForecastPanel.maxTempShown
      = [20] ∧
    (∀ d : WeatherData, Simple.currentTempShown d .F = d.current.temp_f) ∧
    (772 / 5 : ℚ) ≠ 68 ∧ (20 : ℚ) ≠ 68 := by
  refine ⟨?_, ?_, rfl, ?_, ?_, ?_, ?_, fun d => rfl, by norm_num, by norm_num⟩ <;>
    norm_num [Rich.currentTempShown, Rich.renderForecast, Rich.ForecastCard,
      Simple.renderForecast, Simple.ForecastCard, sampleData,
      toFahrenheit, toFixed1]

/-- C9: on any snapshot with exactly five forecast entries, both
renderers produce exactly five panels; the panels carry, in the same
order, the date and condition text and icon of the corresponding entries,
and in Celsius mode the max and min values of the corresponding
entries. -/
theorem success_renders_five_panels (d : WeatherData) (u : TempUnit)
    (h : d.forecast.forecastday.length = 5) :
    (Rich.renderForecast d u).length = 5 ∧
    (Simple.renderForecast d u).length = 5 ∧
    (Rich.renderForecast d u).map ForecastPanel.date
      = d.forecast.forecastday.map ForecastDay.date ∧
    (Rich.renderForecast d u).map ForecastPanel.conditionText
      = d.forecast.forecastday.map (fun e => e.day.condition.text) ∧
    (Rich.renderForecast d u).map ForecastPanel.conditionIcon
      = d.forecast.forecastday.map (fun e => e.day.condition.icon) ∧
    (Rich.renderForecast d .C).map ForecastPanel.maxTempShown
      = d.forecast.forecastday.map (fun e => e.day.maxtemp_c) ∧
    (Rich.renderForecast d .C).map ForecastPanel.minTempShown
      = d.forecast.forecastday.map (fun e => e.day.mintemp_c) := by
  refine ⟨?_, ?_, ?_, ?_, ?_, ?_, ?_⟩ <;>
    simp [Rich.renderForecast, Simple.renderForecast, Rich.ForecastCard,
      Simple.ForecastCard, List.map_map, h, Function.comp]

/-- Witness for C9: the five-day London snapshot renders five panels in
date order with the stored Celsius values. -/
theorem success_renders_five_panels_witness :
    (Rich.renderForecast fiveDayData .C).length = 5 ∧
    (Simple.renderForecast fiveDayData .C).length = 5 ∧
    (Rich.renderForecast fiveDayData .C).map ForecastPanel.date
      = fiveDayData.forecast.forecastday.map ForecastDay.date ∧
    (Rich.renderForecast fiveDayData .C).map ForecastPanel.conditionText
      = fiveDayData.forecast.forecastday.map (fun e => e.day.condition.text) ∧
    (Rich.renderForecast fiveDayData .C).map ForecastPanel.conditionIcon
      = fiveDayData.forecast.forecastday.map (fun e => e.day.condition.icon) ∧
    (Rich.renderForecast fiveDayData .C).map ForecastPanel.maxTempShown
      = fiveDayData.forecast.forecastday.map (fun e => e.day.maxtemp_c) ∧
    (Rich.renderForecast fiveDayData .C).map ForecastPanel.minTempShown
      = fiveDayData.forecast.forecastday.map (fun e => e.day.mintemp_c) :=
  success_renders_five_panels fiveDayData .C rfl

/-- C10: neither renderer branches on the forecast length: each produces
one panel per entry of forecast.forecastday, whatever that length is,
with no validation and no error path. -/
theorem render_total_in_forecast_length :
    ∀ (d : WeatherData) (u : TempUnit),
      (Rich.renderForecast d u).length = d.forecast.forecastday.length ∧
      (Simple.renderForecast d u).length = d.forecast.forecastday.length := by
  intro d u
  simp [Rich.renderForecast, Simple.renderForecast]

end WeatherApp
